import Mathlib

/-!
Verification of the deterministic EDIFACT core of the repository: the
delimiter resolver, the escape-aware segment tokenizer and element splitter,
the structural validator, the field annotator and the mutation-based
conformance tester.  Each definition is a shallow embedding of the
corresponding JavaScript function (detectDelimsFromText / detectDelimiters,
splitSegments, splitElements, parseEdifactToJson, explain, and the tester's
mutation loop), with strings modelled as `List Char` in the scanners.
-/

namespace Edifact

/-- The four control characters of an interchange (the `DelimiterSet` of the
design): component separator, data separator, release (escape) character and
segment terminator. -/
structure Delims where
  componentSep : Char
  dataSep : Char
  releaseChar : Char
  segTerm : Char
deriving DecidableEq, Repr

/-- The EDIFACT default delimiters `:`, `+`, `?`, `'`. -/
def defaultDelims : Delims := ⟨':', '+', '?', '\''⟩

/-- Embedding of `detectDelimsFromText` / `detectDelimiters`: when the text
starts with `UNA`, `six = text.slice(3, 9)`; when `six` has exactly six
characters, positions 0, 1, 3 and 5 of `six` become the component separator,
data separator, release character and segment terminator; in every other
case the defaults are returned.  The function is total: no input raises. -/
def detectDelimsFromText (t : List Char) : Delims :=
  if ['U', 'N', 'A'].isPrefixOf t then
    let six := (t.drop 3).take 6
    if six.length = 6 then
      { componentSep := six.getD 0 ':'
        dataSep := six.getD 1 '+'
        releaseChar := six.getD 3 '?'
        segTerm := six.getD 5 '\'' }
    else defaultDelims
  else defaultDelims

/-- JavaScript `String.prototype.trim`: whitespace removed from both ends. -/
def jsTrim (l : List Char) : List Char :=
  ((l.dropWhile Char.isWhitespace).reverse.dropWhile Char.isWhitespace).reverse

/-- The regex replacement `s.replace(/\r?\n/g, '')`: every line feed is
removed, together with a carriage return immediately preceding it. -/
def stripNewlines : List Char → List Char
  | '\r' :: '\n' :: rest => stripNewlines rest
  | '\n' :: rest => stripNewlines rest
  | c :: rest => c :: stripNewlines rest
  | [] => []

/-- The scan loop of `splitSegments`: one boolean `released` flag; a
character after the release character is appended literally; an unescaped
release character only sets the flag; an unescaped terminator emits the
trimmed buffer when it is non-empty; at the end of the input the trimmed
buffer is emitted when non-empty. -/
def splitSegAux (term rel : Char) : List Char → List Char → Bool → List (List Char)
  | [], cur, _ => if jsTrim cur = [] then [] else [jsTrim cur]
  | ch :: rest, cur, released =>
    if released then splitSegAux term rel rest (cur ++ [ch]) false
    else if ch = rel then splitSegAux term rel rest cur true
    else if ch = term then
      (if jsTrim cur = [] then splitSegAux term rel rest [] false
       else jsTrim cur :: splitSegAux term rel rest [] false)
    else splitSegAux term rel rest (cur ++ [ch]) false

/-- Embedding of `splitSegments(text, segTerm, releaseChar)`. -/
def splitSegments (t : List Char) (term rel : Char) : List (List Char) :=
  splitSegAux term rel t [] false

/-- The scan loop of `splitElements`: identical escape handling, but every
unescaped separator ends the current token, and the trailing token is always
emitted, even when empty. -/
def splitElemAux (sep rel : Char) : List Char → List Char → Bool → List (List Char)
  | [], cur, _ => [cur]
  | ch :: rest, cur, released =>
    if released then splitElemAux sep rel rest (cur ++ [ch]) false
    else if ch = rel then splitElemAux sep rel rest cur true
    else if ch = sep then cur :: splitElemAux sep rel rest [] false
    else splitElemAux sep rel rest (cur ++ [ch]) false

/-- Embedding of `splitElements(str, sep, releaseChar)`. -/
def splitElements (s : List Char) (sep rel : Char) : List (List Char) :=
  splitElemAux sep rel s [] false

/-- JavaScript `toUpperCase`, for the ASCII range the tags use. -/
def toUpperChars (l : List Char) : List Char := l.map Char.toUpper

/-- A tokenized segment (`RawSegment` of the design): uppercased 3-letter
tag, 1-based position and the element/component tree. -/
structure RawSegment where
  tag : String
  position : Nat
  elements : List (List String)
deriving DecidableEq, Repr

/-- The per-segment step of the parse loop: `tag = raw.slice(0,3).toUpperCase()`,
`rest = raw.slice(3)`, a data separator immediately after the tag is dropped,
and the remainder is split into elements and components. -/
def mkSeg (d : Delims) (raw : List Char) (pos : Nat) : RawSegment :=
  let rest := raw.drop 3
  let elems := match rest with
    | c :: r => if c = d.dataSep then r else rest
    | [] => []
  { tag := String.mk (toUpperChars (raw.take 3))
    position := pos
    elements :=
      (splitElements elems d.dataSep d.releaseChar).map fun e =>
        (splitElements e d.componentSep d.releaseChar).map String.mk }

/-- The parse loop over the cleaned raw segments; `pos` starts at 0 and the
stored position is `pos + 1` (the JavaScript `++pos`). -/
def buildSegs (d : Delims) : Nat → List (List Char) → List RawSegment
  | _, [] => []
  | pos, raw :: rest => mkSeg d raw (pos + 1) :: buildSegs d (pos + 1) rest

/-- The cleaned raw segment strings: `splitSegments(...).map(s =>
s.replace(/\r?\n/g, '').trim()).filter(Boolean)`. -/
def segsRawOf (d : Delims) (t : List Char) : List (List Char) :=
  ((splitSegments t d.segTerm d.releaseChar).map fun s => jsTrim (stripNewlines s)).filter
    fun s => !s.isEmpty

/-- The tokenization pipeline shared by `parseEdifactToJson` and
`baselineParseAndExplain`: resolve the delimiters from the text itself, then
tokenize into positioned raw segments. -/
def parseSegments (t : List Char) : List RawSegment :=
  buildSegs (detectDelimsFromText t) 0 (segsRawOf (detectDelimsFromText t) t)

/-- JavaScript `parseInt(s, 10)` restricted to what `Number.isFinite` keeps:
leading whitespace is skipped, an optional sign is read, and the result is
the value of the longest leading digit run; `none` when there is none (the
`NaN` case). -/
def jsParseInt (s : List Char) : Option Int :=
  let digitsVal : List Char → Option Nat := fun r =>
    let ds := r.takeWhile Char.isDigit
    if ds.isEmpty then none
    else some (ds.foldl (fun a c => a * 10 + (c.toNat - 48)) 0)
  match s.dropWhile Char.isWhitespace with
  | '-' :: r => (digitsVal r).map fun n => -(n : Int)
  | '+' :: r => (digitsVal r).map fun n => (n : Int)
  | r => (digitsVal r).map fun n => (n : Int)

/-- A `StructuralError` record as pushed by the validator. -/
structure StructuralError where
  code : String
  message : String
  segmentTag : String
  position : Nat
  field : Option String := none
  value : Option String := none
deriving DecidableEq, Repr

/-- `segments.find(s => s.tag === tag)`. -/
def firstWithTag (tag : String) (segs : List RawSegment) : Option RawSegment :=
  segs.find? fun s => s.tag == tag

/-- `segments.findLast(s => s.tag === tag)`. -/
def lastWithTag (tag : String) (segs : List RawSegment) : Option RawSegment :=
  segs.reverse.find? fun s => s.tag == tag

/-- The UNH check of `parseEdifactToJson`: the first `UNH` segment's
`(elements[2] || [])[0]` is read; when it is a non-empty string whose
uppercase form differs from the expected format, one `FIELD_VALUE_MISMATCH`
error is pushed. -/
def unhErrors (format : String) (segs : List RawSegment) : List StructuralError :=
  match firstWithTag "UNH" segs with
  | none => []
  | some seg =>
    match (seg.elements.getD 2 []).head? with
    | none => []
    | some t =>
      if t ≠ "" ∧ String.mk (toUpperChars t.data) ≠ format then
        [{ code := "FIELD_VALUE_MISMATCH"
           message := "Message type must be " ++ format
           segmentTag := "UNH"
           position := seg.position
           field := some "S009.01"
           value := some t }]
      else []

/-- The UNT check of `parseEdifactToJson`: the last `UNT` segment's
`(elements[1] || [])[0] || ''` is parsed with `parseInt`; when the result is
not finite, one `UNT_SEGMENT_COUNT_MISSING` error is pushed. -/
def untErrors (segs : List RawSegment) : List StructuralError :=
  match lastWithTag "UNT" segs with
  | none => []
  | some seg =>
    match jsParseInt ((seg.elements.getD 1 []).head?.getD "").data with
    | none =>
      [{ code := "UNT_SEGMENT_COUNT_MISSING"
         message := "UNT segment count missing or invalid"
         segmentTag := "UNT"
         position := seg.position }]
    | some _ => []

/-- The value `parseEdifactToJson` resolves with: the delimiter set, the
segment sequence and the accumulated structural errors. -/
structure ParseResult where
  delimiters : Delims
  segments : List RawSegment
  errors : List StructuralError
deriving DecidableEq, Repr

/-- Embedding of the baseline `parseEdifactToJson(edifactText)`: a `null` or
empty or non-string input (modelled as `none` or `some ""`) raises
`EMPTY_INPUT`; every other input is tokenized and validated, and the
function returns normally. -/
def parseEdifactToJson (format : String) (input : Option String) :
    Except String ParseResult :=
  match input with
  | none => .error "EMPTY_INPUT"
  | some text =>
    if text = "" then .error "EMPTY_INPUT"
    else
      let segs := parseSegments text.data
      .ok { delimiters := detectDelimsFromText text.data
            segments := segs
            errors := unhErrors format segs ++ untErrors segs }

/-! ### The conformance tester's mutation path (`createEdifactTester`) -/

/-- The first replacement of the tester's `glitch`:
`s.replace(/\+\+/g, '+?+')`, a left-to-right non-overlapping scan. -/
def glitchPlus : List Char → List Char
  | '+' :: '+' :: rest => '+' :: '?' :: '+' :: glitchPlus rest
  | c :: rest => c :: glitchPlus rest
  | [] => []

/-- The second replacement of the tester's `glitch`:
`s.replace(/^UNH/gm, 'UXH')` — `UNH` is replaced only at the start of the
string or right after a line terminator, and the scan resumes after the
match. -/
def glitchUNH : Bool → List Char → List Char
  | true, 'U' :: 'N' :: 'H' :: rest => 'U' :: 'X' :: 'H' :: glitchUNH false rest
  | _, c :: rest => c :: glitchUNH (c == '\n' || c == '\r') rest
  | _, [] => []

/-- The tester's `glitch(s)`: both replacements in order. -/
def glitch (t : List Char) : List Char := glitchUNH true (glitchPlus t)

/-- Whether `pat` occurs as a contiguous substring of `s` (the JavaScript
`/…/.test(code)` on an alternation of plain words). -/
def hasSub (pat : List Char) : List Char → Bool
  | [] => pat.isEmpty
  | s@(_ :: rest) => pat.isPrefixOf s || hasSub pat rest

/-- The fixed detection set of the tester's mutated-run check. -/
def detectionPatterns : List String :=
  ["UNKNOWN_SEGMENT", "MALFORMED_SEGMENT_TAG", "INVALID_SEGMENT_TAG",
   "UNH_OUT_OF_SEQUENCE", "SEGMENT_OUT_OF_MESSAGE_SCOPE"]

/-- `errs.some(e => /UNKNOWN_SEGMENT|…/.test(e.code))`. -/
def errorDetected (errs : List StructuralError) : Bool :=
  errs.any fun e => detectionPatterns.any fun p => hasSub p.data e.code.data

/-- The recorded `ok` of a mutated sample: the tester mutates the text with
`glitch`, reruns the pipeline, and records `ok = true` when the run throws
or when the returned error list contains a detection-set code. -/
def mutatedOk (format : String) (text : String) : Bool :=
  match parseEdifactToJson format (some (String.mk (glitch text.data))) with
  | .error _ => true
  | .ok r => errorDetected r.errors

/-! ### The field annotator (`explain`) -/

/-- One `{code, meaning}` entry of a mapping field's `codes` list. -/
structure CodeEntry where
  code : String
  meaning : String
deriving DecidableEq, Repr

/-- A `MappingEntry` of the mapping table; an absent `name`, `description`
or `codes` is modelled by the falsy `""` / `[]`. -/
structure MappingEntry where
  path : String
  name : String := ""
  description : String := ""
  codes : List CodeEntry := []
deriving DecidableEq, Repr

/-- The per-tag part of a mapping table. -/
structure MappingSegment where
  segmentDescription : String := ""
  notes : String := ""
  fields : List MappingEntry := []
deriving DecidableEq, Repr

/-- A mapping table: `tag → MappingSegment`, as an association list. -/
def MappingTable : Type := List (String × MappingSegment)

/-- `mapping?.[tag]`. -/
def lookupTable (table : MappingTable) (tag : String) : Option MappingSegment :=
  (table.find? fun p => p.1 == tag).map fun p => p.2

/-- `pad2(n) = String(n+1).padStart(2, '0')`. -/
def pad2 (n : Nat) : String :=
  let s := toString (n + 1)
  if s.length < 2 then "0" ++ s else s

/-- `getFieldMeta(tag, i, j)`: the first field whose non-empty `path` equals
the padded `TAG/ii/jj` or the unpadded `TAG/i+1/j+1`. -/
def getFieldMeta (m : Option MappingSegment) (tag : String) (i j : Nat) :
    Option MappingEntry :=
  match m with
  | none => none
  | some ms =>
    let p2 := tag ++ "/" ++ pad2 i ++ "/" ++ pad2 j
    let pu := tag ++ "/" ++ toString (i + 1) ++ "/" ++ toString (j + 1)
    ms.fields.find? fun f => f.path != "" && (f.path == p2 || f.path == pu)

/-- The built-in date/time qualifier table of `explain`. -/
def qualifiersDTM (q : String) : Option String :=
  if q = "137" then some "Document/message date/time"
  else if q = "171" then some "Reference date/time"
  else if q = "163" then some "Delivery date/time, latest"
  else none

/-- The built-in reference qualifier table of `explain`. -/
def qualifiersRFF (q : String) : Option String :=
  if q = "ON" then some "Order number"
  else if q = "DQ" then some "Delivery note number"
  else if q = "ACE" then some "Reference (ACE)"
  else if q = "TN" then some "Transaction/reference number"
  else if q = "AGO" then some "Agreement/order reference"
  else none

/-- JavaScript `a || b` on possibly-absent strings: `a` when it is defined
and non-empty, otherwise `b`. -/
def jsOrStr (a b : Option String) : Option String :=
  match a with
  | some s => if s = "" then b else some s
  | none => b

/-- `meta?.codes?.find?.(c => c.code === q)?.meaning`. -/
def codesMeaning (meta : Option MappingEntry) (q : String) : Option String :=
  meta.bind fun m => (m.codes.find? fun c => c.code == q).map fun c => c.meaning

/-- The qualifier meaning `explain` resolves for a first component:
`builtin[q] || meta?.codes?.find(...)?.meaning`, kept only when truthy. -/
def qualifierDesc (builtin : String → Option String) (meta : Option MappingEntry)
    (q : String) : Option String :=
  match jsOrStr (builtin q) (codesMeaning meta q) with
  | some s => if s = "" then none else some s
  | none => none

/-- How a resolved qualifier meaning is folded into the field description:
appended in parentheses when a description exists, otherwise standing
alone. -/
def applyQualifier (desc q : String) (qd : Option String) : String :=
  match qd with
  | none => desc
  | some d =>
    if desc ≠ "" then desc ++ " (qualifier " ++ q ++ ": " ++ d ++ ")"
    else "Qualifier " ++ q ++ ": " ++ d

/-- An `AnnotatedField` of the explanations. -/
structure AnnotatedField where
  path : String
  name : String
  description : Option String
  value : String
deriving DecidableEq, Repr

/-- An `AnnotatedSegment` of the explanations. -/
structure AnnotatedSegment where
  segment : String
  position : Nat
  description : String
  fields : List AnnotatedField
deriving DecidableEq, Repr

/-- The inner loop body of `explainSegment`: path, name, description (with
DTM/RFF qualifier enrichment on the first component) and raw value of the
component at element `i`, component `j`. -/
def annotateField (m : Option MappingSegment) (tag : String) (i j : Nat)
    (val : String) : AnnotatedField :=
  let meta := getFieldMeta m tag i j
  let generic := "Component " ++ toString (i + 1) ++ "." ++ toString (j + 1)
  let name := match meta with
    | some f => if f.name = "" then generic else f.name
    | none => generic
  let desc0 := match meta with
    | some f => f.description
    | none => ""
  let q := String.mk (jsTrim val.data)
  let desc1 :=
    if tag == "DTM" && j == 0 then
      applyQualifier desc0 q (qualifierDesc qualifiersDTM meta q)
    else desc0
  let desc2 :=
    if tag == "RFF" && j == 0 then
      applyQualifier desc1 q (qualifierDesc qualifiersRFF meta q)
    else desc1
  { path := tag ++ "/" ++ pad2 i ++ "/" ++ pad2 j
    name := name
    description := if desc2 = "" then none else some desc2
    value := val }

/-- The inner `for j` loop of `explainSegment` over one element's
components. -/
def annotateRow (m : Option MappingSegment) (tag : String) (i : Nat) :
    Nat → List String → List AnnotatedField
  | _, [] => []
  | j, v :: vs => annotateField m tag i j v :: annotateRow m tag i (j + 1) vs

/-- The outer `for i` loop of `explainSegment`: an element with no
components contributes nothing, but still advances the element index. -/
def annotateFields (m : Option MappingSegment) (tag : String) :
    Nat → List (List String) → List AnnotatedField
  | _, [] => []
  | i, comps :: rest =>
    (if comps.isEmpty then [] else annotateRow m tag i 0 comps) ++
      annotateFields m tag (i + 1) rest

/-- `explainSegment(s)`: segment description from the table
(`segmentDescription || notes || 'Segment ' + tag`) and the annotated
fields. -/
def annotateSegment (table : MappingTable) (s : RawSegment) : AnnotatedSegment :=
  let m := lookupTable table s.tag
  let segDesc := match m with
    | some ms =>
      if ms.segmentDescription ≠ "" then ms.segmentDescription
      else if ms.notes ≠ "" then ms.notes
      else "Segment " ++ s.tag
    | none => "Segment " ++ s.tag
  { segment := s.tag
    position := s.position
    description := segDesc
    fields := annotateFields m s.tag 0 s.elements }

/-- The built-in default mapping table of `explain` (used when the caller
supplies no synthesized mapping). -/
def defaultMapping : MappingTable :=
  [("UNH",
    { segmentDescription := "Message header"
      fields :=
        [{ path := "UNH/01/01", name := "Message reference number (0062)"
           description := "Unique message reference assigned by the sender" },
         { path := "UNH/02/01", name := "Message type (0065)"
           description := "Identifies the message type, e.g., APERAK" },
         { path := "UNH/02/02", name := "Version (0052)"
           description := "Message version number" },
         { path := "UNH/02/03", name := "Release (0054)"
           description := "Message release number" },
         { path := "UNH/02/04", name := "Controlling agency (0051)"
           description := "Agency controlling the message, e.g., UN" },
         { path := "UNH/02/05", name := "Association assigned code (0057)"
           description := "Code assigned by associations" }] }),
   ("BGM",
    { segmentDescription := "Beginning of message"
      fields :=
        [{ path := "BGM/01/01", name := "Document/message name, coded (1001)"
           description := "Code identifying the document/message name" },
         { path := "BGM/02/01", name := "Document/message number (1004)"
           description := "Identifier for the document/message" },
         { path := "BGM/03/01", name := "Message function, coded (1225)"
           description := "Code indicating the function of the message" }] }),
   ("DTM",
    { segmentDescription := "Date/time/period"
      fields :=
        [{ path := "DTM/01/01", name := "Date/time/period qualifier (2005)"
           description := "Qualifier specifying the type of date/time (e.g., 137=Document date/time, 171=Reference date/time)" },
         { path := "DTM/01/02", name := "Date/time/period (2380)"
           description := "Date/time value formatted per 2379" },
         { path := "DTM/01/03", name := "Date/time/period format qualifier (2379)"
           description := "Format qualifier for 2380 (e.g., 203=CCYYMMDDHHMM, 303=YYMMDDHHMM)" }] }),
   ("RFF",
    { segmentDescription := "Reference"
      fields :=
        [{ path := "RFF/01/01", name := "Reference qualifier (1153)"
           description := "Specifies the type of reference (e.g., ON=Order, TN=Transaction, ACE=Account/Reference)" },
         { path := "RFF/01/02", name := "Reference number (1154)"
           description := "Reference identifier value" },
         { path := "RFF/01/03", name := "Line number (1156)"
           description := "Related line number, if applicable" },
         { path := "RFF/01/04", name := "Reference version identifier (4000)"
           description := "Free-form reference description or version" }] }),
   ("NAD",
    { segmentDescription := "Name and address"
      fields :=
        [{ path := "NAD/01/01", name := "Party function code qualifier (3035)"
           description := "Identifies the role of the party (e.g., MS=Message sender, MR=Message recipient)" },
         { path := "NAD/02/01", name := "Party id (3039)"
           description := "Identifier of party" },
         { path := "NAD/02/02", name := "Code list qualifier (1131)"
           description := "Code list reference, if any" },
         { path := "NAD/02/03", name := "Code list agency (3055)"
           description := "Agency controlling the code list (e.g., 293)" }] }),
   ("UNB",
    { segmentDescription := "Interchange header"
      fields :=
        [{ path := "UNB/01/01", name := "Syntax identifier (0001)"
           description := "EDIFACT syntax identifier, e.g., UNOC" },
         { path := "UNB/01/02", name := "Syntax version number (0002)"
           description := "Version of the syntax, e.g., 3" },
         { path := "UNB/02/01", name := "Sender identification (0004)"
           description := "Interchange sender ID" },
         { path := "UNB/02/02", name := "Partner identification code qualifier (0007)"
           description := "Qualifier for sender ID" },
         { path := "UNB/03/01", name := "Recipient identification (0010)"
           description := "Interchange recipient ID" },
         { path := "UNB/03/02", name := "Partner identification code qualifier (0007)"
           description := "Qualifier for recipient ID" },
         { path := "UNB/04/01", name := "Date (0017)"
           description := "Date of preparation (YYMMDD or CCYYMMDD depending on use)" },
         { path := "UNB/04/02", name := "Time (0019)"
           description := "Time of preparation (HHMM)" },
         { path := "UNB/05/01", name := "Interchange control reference (0020)"
           description := "Interchange control reference" }] }),
   ("UNT",
    { segmentDescription := "Message trailer"
      fields :=
        [{ path := "UNT/01/01", name := "Number of segments in a message (0074)"
           description := "Segment count including UNH and UNT" },
         { path := "UNT/02/01", name := "Message reference number (0062)"
           description := "Must match UNH reference number" }] }),
   ("UNZ",
    { segmentDescription := "Interchange trailer"
      fields :=
        [{ path := "UNZ/01/01", name := "Interchange control count (0036)"
           description := "Number of messages or functional groups" },
         { path := "UNZ/02/01", name := "Interchange control reference (0020)"
           description := "Must match UNB control reference" }] })]

/-- `explain(parsed)`: the synthesized mapping when it has any key,
otherwise the built-in default mapping; every segment annotated in order. -/
def explainParsed (specMapping : MappingTable) (r : ParseResult) :
    List AnnotatedSegment :=
  let mapping := if specMapping.isEmpty then defaultMapping else specMapping
  r.segments.map (annotateSegment mapping)

/-! ### Auxiliary notions the claims quantify over -/

/-- The number of unescaped separator occurrences of a string, computed by
the same two-state automaton as the splitter but independently of it: a
character in released state is never counted, a release character switches
to released state, and every other occurrence of `sep` is counted. -/
def countUnescaped (sep rel : Char) : List Char → Bool → Nat
  | [], _ => 0
  | ch :: rest, released =>
    if released then countUnescaped sep rel rest false
    else if ch = rel then countUnescaped sep rel rest true
    else if ch = sep then countUnescaped sep rel rest false + 1
    else countUnescaped sep rel rest false

/-- The four delimiter characters are pairwise distinct. -/
def delimsDistinct (d : Delims) : Prop :=
  d.componentSep ≠ d.dataSep ∧ d.componentSep ≠ d.releaseChar ∧
    d.componentSep ≠ d.segTerm ∧ d.dataSep ≠ d.releaseChar ∧
    d.dataSep ≠ d.segTerm ∧ d.releaseChar ≠ d.segTerm

instance (d : Delims) : Decidable (delimsDistinct d) := by
  unfold delimsDistinct
  infer_instance

/-- A mapping entry with its `codes` list removed. -/
def stripCodes (f : MappingEntry) : MappingEntry := { f with codes := [] }

/-- A mapping segment with every field's `codes` list removed. -/
def stripSegCodes (ms : MappingSegment) : MappingSegment :=
  { ms with fields := ms.fields.map stripCodes }

/-- The concrete conformance sample of the design's §8. -/
def sampleText : String :=
  "UNB+UNOC:3+S:R+R:S+250101:0101+REF'UNH+1+APERAK:D:07B:UN:2.1i'BGM+312+X'UNT+4+1'UNZ+1+REF'"

/-- A caller-supplied mapping table whose `DTM` qualifier field carries its
own `codes` entry for the value `137`, used to probe the precedence between
the built-in qualifier table and the mapping table's codes list. -/
def customDTMTable : MappingTable :=
  [("DTM",
    { segmentDescription := "Date/time/period"
      fields :=
        [{ path := "DTM/01/01", name := "Qualifier"
           description := "Qualifier code"
           codes := [⟨"137", "Custom local meaning"⟩] }] })]

/-- The analogous probe table for the reference segment: its `RFF` qualifier
field carries its own `codes` entry for the value `ON`. -/
def customRFFTable : MappingTable :=
  [("RFF",
    { segmentDescription := "Reference"
      fields :=
        [{ path := "RFF/01/01", name := "Qualifier"
           description := "Reference code"
           codes := [⟨"ON", "Custom order meaning"⟩] }] })]

end Edifact

/-! ## Helper lemmas -/

/-- `getD` commutes with `take` below the taken length, without any bound on
the list itself. -/
theorem getD_take_of_lt {α : Type} (d : α) :
    ∀ (l : List α) (n i : Nat), i < n → (l.take n).getD i d = l.getD i d := by
  intro l
  induction l with
  | nil => intro n i _; simp
  | cons a l ih =>
    intro n i hi
    cases n with
    | zero => omega
    | succ n =>
      cases i with
      | zero => simp
      | succ i => simpa using ih n i (by omega)

/-- The splitter emits exactly one token more than the number of unescaped
separators still to come, whatever the buffer holds. -/
theorem splitElemAux_length (sep rel : Char) :
    ∀ (l cur : List Char) (released : Bool),
      (Edifact.splitElemAux sep rel l cur released).length =
        Edifact.countUnescaped sep rel l released + 1 := by
  intro l
  induction l with
  | nil => intro cur released; simp [Edifact.splitElemAux, Edifact.countUnescaped]
  | cons ch rest ih =>
    intro cur released
    cases released with
    | true => simp [Edifact.splitElemAux, Edifact.countUnescaped, ih]
    | false =>
      by_cases h1 : ch = rel
      · simp [Edifact.splitElemAux, Edifact.countUnescaped, h1, ih]
      · by_cases h2 : ch = sep
        · subst h2
          simp [Edifact.splitElemAux, Edifact.countUnescaped, h1, ih]
        · simp [Edifact.splitElemAux, Edifact.countUnescaped, h1, h2, ih]

/-- Raising the starting position of the parse loop by one raises every
emitted segment's position by one. -/
theorem buildSegs_shift (d : Edifact.Delims) :
    ∀ (raws : List (List Char)) (n : Nat),
      Edifact.buildSegs d (n + 1) raws =
        (Edifact.buildSegs d n raws).map
          (fun s => { s with position := s.position + 1 }) := by
  intro raws
  induction raws with
  | nil => intro n; simp [Edifact.buildSegs]
  | cons raw rest ih =>
    intro n
    simp [Edifact.buildSegs, ih, Edifact.mkSeg]

/-- `find?` over a mapped list. -/
theorem find?_comp_map {α β : Type} (f : α → β) (p : β → Bool) :
    ∀ l : List α, (l.map f).find? p = (l.find? fun a => p (f a)).map f := by
  intro l
  induction l with
  | nil => simp
  | cons a l ih =>
    by_cases h : p (f a)
    · simp [List.find?, h]
    · simpa [List.find?, h] using ih

/-- Stripping the codes lists of a mapping segment changes no field's path,
so the matched field is the stripped version of the one matched before. -/
theorem getFieldMeta_strip (ms : Edifact.MappingSegment) (tag : String) (i j : Nat) :
    Edifact.getFieldMeta (some (Edifact.stripSegCodes ms)) tag i j =
      (Edifact.getFieldMeta (some ms) tag i j).map Edifact.stripCodes := by
  simp only [Edifact.getFieldMeta, Edifact.stripSegCodes]
  rw [find?_comp_map]
  rfl

/-- The built-in date/time qualifier table never carries an empty meaning. -/
theorem qualifiersDTM_ne_empty (q d : String) (h : Edifact.qualifiersDTM q = some d) :
    d ≠ "" := by
  unfold Edifact.qualifiersDTM at h
  split_ifs at h
  all_goals injection h with h2
  all_goals subst h2
  all_goals decide

/-- The built-in reference qualifier table never carries an empty meaning. -/
theorem qualifiersRFF_ne_empty (q d : String) (h : Edifact.qualifiersRFF q = some d) :
    d ≠ "" := by
  unfold Edifact.qualifiersRFF at h
  split_ifs at h
  all_goals injection h with h2
  all_goals subst h2
  all_goals decide

/-- When the built-in table defines the qualifier value (with a non-empty
meaning, as both built-in tables do), the resolved meaning is the built-in
one, whatever the mapping entry carries. -/
theorem qualifierDesc_of_builtin (builtin : String → Option String)
    (meta : Option Edifact.MappingEntry) (q d : String)
    (h : builtin q = some d) (hd : d ≠ "") :
    Edifact.qualifierDesc builtin meta q = some d := by
  simp [Edifact.qualifierDesc, Edifact.jsOrStr, h, hd]

/-! ## The claims -/

/-- C2: under default delimiters a character following the release character
is always consumed as literal payload — by both scanners, for every
character `c`, terminator, separator and release character included — so the
sample payload `A?` + terminator + `B` tokenizes as the single segment
`A'B`, and inside a segment it survives as the single component `A'B`. -/
theorem escaped_delimiter_always_literal :
    (∀ (c : Char) (cur rest : List Char),
        Edifact.splitSegAux '\'' '?' ('?' :: c :: rest) cur false =
          Edifact.splitSegAux '\'' '?' rest (cur ++ [c]) false) ∧
    (∀ (c : Char) (cur rest : List Char),
        Edifact.splitElemAux '+' '?' ('?' :: c :: rest) cur false =
          Edifact.splitElemAux '+' '?' rest (cur ++ [c]) false) ∧
    Edifact.splitSegments "A?'B".data '\'' '?' = ["A'B".data] ∧
    Edifact.parseSegments "SEG+A?'B'".data = [⟨"SEG", 1, [["A'B"]]⟩] :=
  ⟨fun _ _ _ => rfl, fun _ _ _ => rfl, by decide, by decide⟩

/-- C3: splitting any string at the data-separator level yields exactly one
token more than its number of unescaped separator occurrences, empty tokens
preserved; `A++B` yields three elements with the middle one empty, and a
trailing empty token is emitted. -/
theorem splitElements_token_count :
    (∀ (s : List Char) (sep rel : Char),
        (Edifact.splitElements s sep rel).length =
          Edifact.countUnescaped sep rel s false + 1) ∧
    Edifact.splitElements "A++B".data '+' '?' = [['A'], [], ['B']] ∧
    Edifact.splitElements "A+".data '+' '?' = [['A'], []] :=
  ⟨fun s sep rel => splitElemAux_length sep rel s [] false, by decide, by decide⟩

/-- C4 (code bug): for a conventional message header whose message type (the
first component of the second data element, `ORDERS` here) differs from the
expected type `APERAK`, the validator emits no error at all: it reads the
type from `elements[2]`, which a conventional `UNH` segment does not have,
so the returned error list is empty instead of holding one
`FIELD_VALUE_MISMATCH`. -/
theorem unh_mismatch_check_dead_on_conventional_header :
    Edifact.parseEdifactToJson "APERAK" (some "UNH+1+ORDERS:D:07B:UN'") =
      .ok ⟨Edifact.defaultDelims,
        [⟨"UNH", 1, [["1"], ["ORDERS", "D", "07B", "UN"]]⟩], []⟩ := rfl

/-- C5 (code bug): for the trailer `UNT+4+REF'`, whose segment-count
component `4` (first data element) is present and numeric, the validator
still emits `UNT_SEGMENT_COUNT_MISSING`: it parses `elements[1][0]` — the
message reference `REF` — as the count. -/
theorem unt_count_error_despite_numeric_count :
    Edifact.parseEdifactToJson "APERAK" (some "UNT+4+REF'") =
      .ok ⟨Edifact.defaultDelims, [⟨"UNT", 1, [["4"], ["REF"]]⟩],
        [⟨"UNT_SEGMENT_COUNT_MISSING", "UNT segment count missing or invalid",
          "UNT", 1, none, none⟩]⟩ := rfl

/-- C1 (counterexample): the conformance sample's mutated run is recorded
with `ok = false`, not `ok = true` as claimed: the `UNH`-corrupting
substitution is anchored to line starts, the single-line sample contains no
line break, and the baseline pipeline neither throws nor reports any
detection-set code on the (unchanged) mutated text. -/
theorem conformance_mutation_not_flagged :
    Edifact.mutatedOk "APERAK" Edifact.sampleText = false := by decide

/-- C1 (amended): tokenizing the conformance sample with default delimiters
yields exactly the five segments `UNB, UNH, BGM, UNT, UNZ` at positions 1
through 5; the tester's mutation leaves this single-line sample unchanged,
and the mutated run's recorded result is `ok = false`. -/
theorem conformance_sample_behavior :
    (Edifact.parseSegments Edifact.sampleText.data).map
        (fun s => (s.tag, s.position)) =
      [("UNB", 1), ("UNH", 2), ("BGM", 3), ("UNT", 4), ("UNZ", 5)] ∧
    String.mk (Edifact.glitch Edifact.sampleText.data) = Edifact.sampleText ∧
    Edifact.mutatedOk "APERAK" Edifact.sampleText = false :=
  ⟨by decide, by decide, by decide⟩

/-- C6 (counterexample): annotating a `DTM` segment whose qualifier `137` —
and, likewise, an `RFF` segment whose qualifier `ON` — is carried by the
mapping table's own codes list still uses the built-in qualifier table's
meaning, appended to the field description: the produced descriptions end in
`Document/message date/time` and `Order number`, although both codes lists
did resolve the values to their custom meanings. -/
theorem builtin_qualifier_overrides_codes :
    (Edifact.annotateSegment Edifact.customDTMTable
          ⟨"DTM", 1, [["137", "202501011200", "203"]]⟩).fields.map
        (fun f => f.description) =
      [some "Qualifier code (qualifier 137: Document/message date/time)",
        none, none] ∧
    Edifact.codesMeaning
        (Edifact.getFieldMeta (Edifact.lookupTable Edifact.customDTMTable "DTM")
          "DTM" 0 0) "137" =
      some "Custom local meaning" ∧
    (Edifact.annotateSegment Edifact.customRFFTable
          ⟨"RFF", 1, [["ON", "12345"]]⟩).fields.map
        (fun f => f.description) =
      [some "Reference code (qualifier ON: Order number)", none] ∧
    Edifact.codesMeaning
        (Edifact.getFieldMeta (Edifact.lookupTable Edifact.customRFFTable "RFF")
          "RFF" 0 0) "ON" =
      some "Custom order meaning" := by decide

/-- C6 (amended): the built-in qualifier tables take precedence for both the
date/time and the reference segment — whenever the built-in table defines
the (trimmed) first-component value of a `DTM` or `RFF` segment, the mapping
table's codes lists are irrelevant to the annotation — and the mapping
table's codes list is consulted only as a fallback, when the corresponding
built-in table has no entry for the value. -/
theorem qualifier_builtin_precedence :
    (∀ (ms : Edifact.MappingSegment) (i : Nat) (v d : String),
        Edifact.qualifiersDTM (String.mk (Edifact.jsTrim v.data)) = some d →
        Edifact.annotateField (some (Edifact.stripSegCodes ms)) "DTM" i 0 v =
          Edifact.annotateField (some ms) "DTM" i 0 v) ∧
    (∀ (ms : Edifact.MappingSegment) (i : Nat) (v d : String),
        Edifact.qualifiersRFF (String.mk (Edifact.jsTrim v.data)) = some d →
        Edifact.annotateField (some (Edifact.stripSegCodes ms)) "RFF" i 0 v =
          Edifact.annotateField (some ms) "RFF" i 0 v) ∧
    (∀ (meta : Option Edifact.MappingEntry) (q m : String),
        Edifact.qualifiersDTM q = none → Edifact.codesMeaning meta q = some m →
        m ≠ "" → Edifact.qualifierDesc Edifact.qualifiersDTM meta q = some m) ∧
    (∀ (meta : Option Edifact.MappingEntry) (q m : String),
        Edifact.qualifiersRFF q = none → Edifact.codesMeaning meta q = some m →
        m ≠ "" → Edifact.qualifierDesc Edifact.qualifiersRFF meta q = some m) := by
  refine ⟨?_, ?_, ?_, ?_⟩
  · intro ms i v d h
    unfold Edifact.annotateField
    rw [getFieldMeta_strip]
    cases hm : Edifact.getFieldMeta (some ms) "DTM" i 0 with
    | none => rfl
    | some f =>
      simp only [Option.map_some]
      rw [qualifierDesc_of_builtin _ _ _ _ h (qualifiersDTM_ne_empty _ _ h),
        qualifierDesc_of_builtin _ _ _ _ h (qualifiersDTM_ne_empty _ _ h)]
      rfl
  · intro ms i v d h
    unfold Edifact.annotateField
    rw [getFieldMeta_strip]
    cases hm : Edifact.getFieldMeta (some ms) "RFF" i 0 with
    | none => rfl
    | some f =>
      simp only [Option.map_some]
      rw [qualifierDesc_of_builtin _ _ _ _ h (qualifiersRFF_ne_empty _ _ h),
        qualifierDesc_of_builtin _ _ _ _ h (qualifiersRFF_ne_empty _ _ h)]
      rfl
  · intro meta q m h1 h2 h3
    simp [Edifact.qualifierDesc, Edifact.jsOrStr, h1, h2, h3]
  · intro meta q m h1 h2 h3
    simp [Edifact.qualifierDesc, Edifact.jsOrStr, h1, h2, h3]

/-- C7: the delimiter resolver extracts positions 0, 1, 3 and 5 of the six
characters following the `UNA` tag exactly when the tag is present and at
least six characters follow it, and returns the defaults in every other
case; being a total function, it never raises. -/
theorem detectDelims_positional_extraction (t : List Char) :
    Edifact.detectDelimsFromText t =
      if ['U', 'N', 'A'].isPrefixOf t ∧ 9 ≤ t.length then
        ⟨(t.drop 3).getD 0 ':', (t.drop 3).getD 1 '+',
         (t.drop 3).getD 3 '?', (t.drop 3).getD 5 '\''⟩
      else Edifact.defaultDelims := by
  by_cases hp : ['U', 'N', 'A'].isPrefixOf t
  · by_cases h9 : 9 ≤ t.length
    · have hlen : ((t.drop 3).take 6).length = 6 := by
        simp only [List.length_take, List.length_drop]
        omega
      rw [if_pos ⟨hp, h9⟩]
      simp only [Edifact.detectDelimsFromText, hp, if_true, hlen, if_pos]
      congr 1 <;> exact getD_take_of_lt _ _ 6 _ (by omega)
    · have hlen : ((t.drop 3).take 6).length ≠ 6 := by
        simp only [List.length_take, List.length_drop]
        omega
      rw [if_neg fun hc => h9 hc.2]
      simp [Edifact.detectDelimsFromText, hp, hlen]
      intro hc
      exact absurd hc (by omega)
  · rw [if_neg fun hc => hp hc.1]
    simp [Edifact.detectDelimsFromText, hp]

/-- C8: `parseEdifactToJson` signals `EMPTY_INPUT` exactly for a missing or
empty input, and for every non-empty string input it returns a parse result
(delimiters, segments, errors) and raises nothing. -/
theorem parseEdifactToJson_input_rejection (fmt : String) (inp : Option String) :
    (Edifact.parseEdifactToJson fmt inp = .error "EMPTY_INPUT" ↔
      (inp = none ∨ inp = some "")) ∧
    ((∃ r, Edifact.parseEdifactToJson fmt inp = .ok r) ↔
      ¬(inp = none ∨ inp = some "")) := by
  cases inp with
  | none => simp [Edifact.parseEdifactToJson]
  | some s =>
    by_cases h : s = ""
    · subst h; simp [Edifact.parseEdifactToJson]
    · simp [Edifact.parseEdifactToJson, h]

/-- C9 (counterexample): a service string advice may declare duplicate
delimiters — for `UNA++++++` the resolver returns a delimiter set whose four
characters are all `+`, so the claimed pairwise-distinctness invariant fails
on this input. -/
theorem advice_with_duplicate_delims :
    ¬ Edifact.delimsDistinct (Edifact.detectDelimsFromText "UNA++++++".data) := by
  decide

/-- C9 (amended): the resolver performs no distinctness check on declared
delimiters; the invariant holds for the default set, hence for every input
that does not carry a well-formed service string advice. -/
theorem default_delims_distinct (t : List Char)
    (h : ¬(['U', 'N', 'A'].isPrefixOf t ∧ 9 ≤ t.length)) :
    Edifact.detectDelimsFromText t = Edifact.defaultDelims ∧
      Edifact.delimsDistinct (Edifact.detectDelimsFromText t) := by
  have hdef : Edifact.detectDelimsFromText t = Edifact.defaultDelims := by
    by_cases hp : ['U', 'N', 'A'].isPrefixOf t
    · have h9 : ¬ 9 ≤ t.length := fun hl => h ⟨hp, hl⟩
      have hlen : ((t.drop 3).take 6).length ≠ 6 := by
        simp only [List.length_take, List.length_drop]
        omega
      simp [Edifact.detectDelimsFromText, hp, hlen]
      intro hc
      exact absurd hc (by omega)
    · simp [Edifact.detectDelimsFromText, hp]
  exact ⟨hdef, by rw [hdef]; decide⟩

/-- Witness for the amended C9 at the concrete input `BGM+1`. -/
theorem default_delims_distinct_witness :
    Edifact.detectDelimsFromText "BGM+1".data = Edifact.defaultDelims ∧
      Edifact.delimsDistinct (Edifact.detectDelimsFromText "BGM+1".data) :=
  default_delims_distinct "BGM+1".data (by decide)

/-- C10: the service string advice is not stripped before segmentation — for
every input of the standard advice followed by text that does not itself
start with an advice tag, the first parsed segment has tag `UNA` and
position 1 (its body the advice characters surviving the escape scan), and
all following segments keep their order with positions shifted up by one
relative to the same input without the advice. -/
theorem advice_not_stripped (rest : String)
    (h : (['U', 'N', 'A'].isPrefixOf rest.data) = false) :
    Edifact.parseSegments ("UNA:+.? '".data ++ rest.data) =
      ⟨"UNA", 1, [["", ""], ["."]]⟩ ::
        (Edifact.parseSegments rest.data).map
          (fun s => { s with position := s.position + 1 }) := by
  have hdet : Edifact.detectDelimsFromText rest.data = Edifact.defaultDelims := by
    simp [Edifact.detectDelimsFromText, h]
  have h1 : Edifact.parseSegments ("UNA:+.? '".data ++ rest.data) =
      ⟨"UNA", 1, [["", ""], ["."]]⟩ ::
        Edifact.buildSegs Edifact.defaultDelims 1
          (Edifact.segsRawOf Edifact.defaultDelims rest.data) := rfl
  have h2 : Edifact.parseSegments rest.data =
      Edifact.buildSegs Edifact.defaultDelims 0
        (Edifact.segsRawOf Edifact.defaultDelims rest.data) := by
    unfold Edifact.parseSegments
    rw [hdet]
  rw [h1, h2, ← buildSegs_shift]

/-- Witness for C10 at the concrete remainder `BGM+1'`. -/
theorem advice_not_stripped_witness :
    Edifact.parseSegments ("UNA:+.? '".data ++ ("BGM+1'" : String).data) =
      ⟨"UNA", 1, [["", ""], ["."]]⟩ ::
        (Edifact.parseSegments ("BGM+1'" : String).data).map
          (fun s => { s with position := s.position + 1 }) :=
  advice_not_stripped "BGM+1'" (by decide)
